import Mathlib

/-!
Verification development for the greeting service (`FastAPI Demo/main.py`).

The repository is a single module: a `Mood` enumeration, a pure helper
`craft_message` that maps (name, mood, language, time_of_day) to
(message, tone, tips) via static lookup tables and an if/elif chain,
a `validate_language` guard, the `POST /greet` handler `greet`, and the
`GET /health` liveness handler.  Each Python construct is embedded
shallowly below: dictionaries become match-based partial maps returning
`Option String`, `dict.get` with a default becomes `Option.getD`,
f-string interpolation becomes string concatenation, and a raised
`HTTPException` becomes an explicit error constructor.
-/

namespace GreetingBot

/-- Embedding of `class Mood(str, Enum)` with members
happy, neutral, tired, excited, sad. -/
inductive Mood where
  | happy
  | neutral
  | tired
  | excited
  | sad
deriving DecidableEq, Repr

/-- Embedding of `mood.value`: the literal string label of each member. -/
def Mood.value : Mood → String
  | .happy => "happy"
  | .neutral => "neutral"
  | .tired => "tired"
  | .excited => "excited"
  | .sad => "sad"

/-- Embedding of Python `str.lower()` (ASCII case folding, which covers
every string the program compares after lowering: language codes and the
day-part keys). -/
def lower (s : String) : String := ⟨s.data.map Char.toLower⟩

/-- Embedding of the `tod_prefix` dict of dicts in `craft_message`
(lines 36-40): keys "morning"/"afternoon"/"evening", each mapping the
languages "en" and "hi" to a greeting string; every other (key, language)
pair is absent. -/
def tod_prefix (day language : String) : Option String :=
  match day, language with
  | "morning", "en" => some "Good morning"
  | "morning", "hi" => some "सुप्रभात"
  | "afternoon", "en" => some "Good afternoon"
  | "afternoon", "hi" => some "नमस्ते"
  | "evening", "en" => some "Good evening"
  | "evening", "hi" => some "शुभ संध्या"
  | _, _ => none

/-- The keys of the `tod_prefix` dict, for the membership test
`time_of_day.lower() in tod_prefix` (line 44). -/
def todKeys : List String := ["morning", "afternoon", "evening"]

/-- Embedding of the `hello` dict (line 41): `{"en": "Hello", "hi": "नमस्ते"}`. -/
def hello (language : String) : Option String :=
  match language with
  | "en" => some "Hello"
  | "hi" => some "नमस्ते"
  | _ => none

/-- Embedding of the greeting-base selection of `craft_message`
(lines 43-47).  `time_of_day and time_of_day.lower() in tod_prefix` is
Python truthiness (the empty string is falsy) together with dict-key
membership; `d.get(k, default)` is `Option.getD`. -/
def chooseBase (language : String) (time_of_day : Option String) : String :=
  match time_of_day with
  | some t =>
    if t ≠ "" ∧ lower t ∈ todKeys then
      ( tod_prefix (lower t) language).getD ((hello language).getD "Hello")
    else
      (hello language).getD "Hello"
  | none => (hello language).getD "Hello"

/-- Embedding of `craft_message` (lines 34-63): greeting base selection,
then the tone/tips if/elif chain on the mood, then the f-string
`f"{base}, {name}! Hope you’re doing {mood.value}."` (the apostrophe in
the source is the typographic U+2019 character).  Returns
(message, tone, tips). -/
def craft_message (name : String) (mood : Mood) (language : String)
    (time_of_day : Option String) : String × String × List String :=
  let base := chooseBase language time_of_day
  let tt : String × List String :=
    if mood = Mood.tired then
      ("gentle", ["Take a short break and hydrate."])
    else if mood = Mood.excited then
      ("energetic", ["Channel that energy into your top task for 25 minutes."])
    else if mood = Mood.sad then
      ("supportive", ["A short walk or a call with a friend can help."])
    else
      ("friendly", [])
  (base ++ ", " ++ name ++ "! Hope you’re doing " ++ mood.value ++ ".", tt.1, tt.2)

/-- Embedding of `validate_language` (lines 65-68): `none` when the check
passes, `some (status, detail)` for the raised `HTTPException`. -/
def validate_language (code : String) : Option (Nat × String) :=
  if lower code ∈ ["en", "hi"] then none
  else some (400, "Unsupported language. Use 'en' or 'hi'.")

/-- The code-point ranges (inclusive) of the characters Python counts as
digits — Unicode Numeric_Type Decimal or Digit: the ASCII digits,
superscripts and subscripts, the decimal digits of the other scripts,
circled and parenthesized digits, and so on.  Exactly the code points on
which CPython's `str.isdigit` is character-wise true (Unicode 14.0
tables). -/
def pyDigitRanges : List (Nat × Nat) :=
  [(48, 57), (178, 179), (185, 185), (1632, 1641),
   (1776, 1785), (1984, 1993), (2406, 2415), (2534, 2543),
   (2662, 2671), (2790, 2799), (2918, 2927), (3046, 3055),
   (3174, 3183), (3302, 3311), (3430, 3439), (3558, 3567),
   (3664, 3673), (3792, 3801), (3872, 3881), (4160, 4169),
   (4240, 4249), (4969, 4977), (6112, 6121), (6160, 6169),
   (6470, 6479), (6608, 6618), (6784, 6793), (6800, 6809),
   (6992, 7001), (7088, 7097), (7232, 7241), (7248, 7257),
   (8304, 8304), (8308, 8313), (8320, 8329), (9312, 9320),
   (9332, 9340), (9352, 9360), (9450, 9450), (9461, 9469),
   (9471, 9471), (10102, 10110), (10112, 10120), (10122, 10130),
   (42528, 42537), (43216, 43225), (43264, 43273), (43472, 43481),
   (43504, 43513), (43600, 43609), (44016, 44025), (65296, 65305),
   (66720, 66729), (68160, 68163), (68912, 68921), (69216, 69224),
   (69714, 69722), (69734, 69743), (69872, 69881), (69942, 69951),
   (70096, 70105), (70384, 70393), (70736, 70745), (70864, 70873),
   (71248, 71257), (71360, 71369), (71472, 71481), (71904, 71913),
   (72016, 72025), (72784, 72793), (73040, 73049), (73120, 73129),
   (92768, 92777), (92864, 92873), (93008, 93017), (120782, 120831),
   (123200, 123209), (123632, 123641), (125264, 125273), (127232, 127242),
   (130032, 130041)]

/-- A character is a digit to Python iff its code point lies in one of
the `pyDigitRanges`. -/
def isPyDigit (c : Char) : Bool :=
  pyDigitRanges.any fun r => r.1 ≤ c.toNat && c.toNat ≤ r.2

/-- Embedding of `str.isdigit` as used on the validated name (line 77):
true iff the string is non-empty and every character is a digit to
Python (`isPyDigit`), covering Unicode digits such as '٣' and '²' as
well as the ASCII ones. -/
def isdigit (s : String) : Bool :=
  !s.isEmpty && s.data.all isPyDigit

/-- Outcome of the `POST /greet` handler: a raised `HTTPException`
(status, detail) or a `GreetResponse` (message, tone, tips) with
status 200. -/
inductive GreetResult where
  | error (status : Nat) (detail : String)
  | ok (message : String) (tone : String) (tips : List String)
deriving DecidableEq, Repr

/-- Embedding of the `greet` handler (lines 72-86): run
`validate_language` on the payload language, reject an all-digit name,
then call `craft_message` with `payload.language.lower()` and wrap the
result. -/
def greet (name : String) (mood : Mood) (language : String)
    (time_of_day : Option String) : GreetResult :=
  match validate_language language with
  | some e => .error e.1 e.2
  | none =>
    if isdigit name then
      .error 400 "Name cannot be all digits."
    else
      let r := craft_message name mood (lower language) time_of_day
      .ok r.1 r.2.1 r.2.2

/-- Modelled from the spec: the structural validation that pydantic
performs on `GreetRequest.name` from the declaration
`Annotated[str, Field(strip_whitespace=True, min_length=1, max_length=50)]`
(lines 17-25) — the validation engine itself is framework code not in the
repository.  Surrounding whitespace is stripped; the stripped value must
have length between 1 and 50, else the request is rejected with a
structural 422 schema error (modelled as `none`). -/
def validateName (raw : String) : Option String :=
  let t := strip raw
  if 1 ≤ t.length ∧ t.length ≤ 50 then some t else none
where
  /-- Modelled from the spec: whitespace stripping at both ends. -/
  strip (s : String) : String :=
    ⟨((s.data.dropWhile Char.isWhitespace).reverse.dropWhile
        Char.isWhitespace).reverse⟩

/-- Embedding of the `health` handler (lines 90-92): status 200 with the
constant body `{"status": "ok"}`. -/
def health : Nat × List (String × String) := (200, [("status", "ok")])

/-! ### Theorems about the claims -/

/-- Helper: a string is non-empty iff its length is at least one. -/
theorem ne_empty_iff_one_le_length (s : String) : s ≠ "" ↔ 1 ≤ s.length := by
  cases s with
  | mk l =>
    cases l with
    | nil => exact ⟨fun h => absurd rfl h, fun h => absurd h (by decide)⟩
    | cons c cs =>
      constructor
      · intro _
        exact Nat.succ_le_succ (Nat.zero_le _)
      · intro _ h
        exact absurd (congrArg String.data h) (by simp)

/-- C1 (counterexample).  The claim quotes the composed message with an
ASCII apostrophe, `"Hello, Asha! Hope you're doing tired."`; the source
f-string uses the typographic apostrophe U+2019, so the message returned
for `craft("Asha", tired, "en", null)` is not the claimed string. -/
theorem craft_message_asha_ascii_apostrophe_refuted :
    (craft_message "Asha" Mood.tired "en" none).1 ≠
      "Hello, Asha! Hope you're doing tired." := by
  decide

/-- C1 (amended).  For every input, `craft_message` composes its message
exactly as `"{base}, {name}! Hope you’re doing {mood_value}."` (with the
source's typographic apostrophe U+2019), where the base is the selected
greeting and the mood value its literal label; in particular
`craft("Asha", tired, "en", null)` returns the message
`"Hello, Asha! Hope you’re doing tired."` with tone `"gentle"` and tips
`["Take a short break and hydrate."]`. -/
theorem craft_message_compose (name : String) (mood : Mood)
    (language : String) (time_of_day : Option String) :
    (craft_message name mood language time_of_day).1 =
      chooseBase language time_of_day ++ ", " ++ name ++
        "! Hope you’re doing " ++ mood.value ++ "." ∧
    craft_message "Asha" Mood.tired "en" none =
      ("Hello, Asha! Hope you’re doing tired.", "gentle",
        ["Take a short break and hydrate."]) :=
  ⟨rfl, by decide⟩

/-- C2.  Tone and tips are selected by mutually exclusive branches on the
mood, in the fixed priority order tired > excited > sad > default:
tired is gentle with the break tip, excited is energetic with the focus
tip, sad is supportive with the walk tip, and happy and neutral are
friendly with no tips — for every name, language and time of day. -/
theorem craft_message_tone_tips (name : String) (language : String)
    (time_of_day : Option String) :
    (craft_message name Mood.tired language time_of_day).2 =
      ("gentle", ["Take a short break and hydrate."]) ∧
    (craft_message name Mood.excited language time_of_day).2 =
      ("energetic", ["Channel that energy into your top task for 25 minutes."]) ∧
    (craft_message name Mood.sad language time_of_day).2 =
      ("supportive", ["A short walk or a call with a friend can help."]) ∧
    (craft_message name Mood.happy language time_of_day).2 = ("friendly", []) ∧
    (craft_message name Mood.neutral language time_of_day).2 = ("friendly", []) :=
  ⟨rfl, rfl, rfl, rfl, rfl⟩

/-- C3.  Greeting-base selection: when the time of day is present and its
lowercase form is one of the day-part keys, the base is looked up in that
day-part's per-language sub-table, falling back to the default table for
the language and then to the literal "Hello"; otherwise the base comes
from the default table (language, else "Hello").  The default table maps
"en" to "Hello" and "hi" to "नमस्ते", and for an unknown language its
fallback is "Hello"; in particular `craft("Sam", excited, "fr", null)`
has base "Hello" and tone "energetic". -/
theorem chooseBase_fallback_chain :
    (∀ language t g, lower t ∈ todKeys → tod_prefix (lower t) language = some g →
      chooseBase language (some t) = g) ∧
    (∀ language t, lower t ∈ todKeys → tod_prefix (lower t) language = none →
      chooseBase language (some t) = (hello language).getD "Hello") ∧
    (∀ language t, lower t ∉ todKeys →
      chooseBase language (some t) = (hello language).getD "Hello") ∧
    (∀ language, chooseBase language none = (hello language).getD "Hello") ∧
    hello "en" = some "Hello" ∧ hello "hi" = some "नमस्ते" ∧
    (∀ language, hello language = none → (hello language).getD "Hello" = "Hello") ∧
    chooseBase "fr" none = "Hello" ∧
    (craft_message "Sam" Mood.excited "fr" none).2.1 = "energetic" := by
  refine ⟨?_, ?_, ?_, fun _ => rfl, rfl, rfl, ?_, by decide, by decide⟩
  · intro language t g hmem hlook
    have ht : t ≠ "" := by
      rintro rfl
      exact absurd hmem (by decide)
    simp only [chooseBase]
    rw [if_pos ⟨ht, hmem⟩, hlook]
    rfl
  · intro language t hmem hlook
    have ht : t ≠ "" := by
      rintro rfl
      exact absurd hmem (by decide)
    simp only [chooseBase]
    rw [if_pos ⟨ht, hmem⟩, hlook]
    rfl
  · intro language t hmem
    simp only [chooseBase]
    rw [if_neg fun hc => hmem hc.2]
  · intro language h
    rw [h]
    rfl

/-- C3 (witness).  The sub-table lookup branch at a concrete input
("hi", "Morning"), and the default-table fallback branch at a concrete
unknown language ("de", "morning"). -/
theorem chooseBase_fallback_chain_witness :
    chooseBase "hi" (some "Morning") = "सुप्रभात" ∧
    chooseBase "de" (some "morning") = "Hello" :=
  ⟨chooseBase_fallback_chain.1 "hi" "Morning" "सुप्रभात" (by decide) (by decide),
   (chooseBase_fallback_chain.2.1 "de" "morning" (by decide) (by decide)).trans
     (by decide)⟩

/-- C4.  For every valid input (any name, any mood, language "en" or "hi",
any optional time of day) `craft_message` returns a message that contains
the name and the mood's literal value, a tone among
friendly/gentle/energetic/supportive, and a tip list of length 0 or 1;
being a total Lean function, it returns such a triple on all of this
domain. -/
theorem craft_message_shape (name : String) (mood : Mood) (language : String)
    (time_of_day : Option String) (_h : language = "en" ∨ language = "hi") :
    (∃ p q, (craft_message name mood language time_of_day).1 = p ++ (name ++ q)) ∧
    (∃ p q, (craft_message name mood language time_of_day).1 =
      p ++ (mood.value ++ q)) ∧
    (craft_message name mood language time_of_day).2.1 ∈
      ["friendly", "gentle", "energetic", "supportive"] ∧
    (craft_message name mood language time_of_day).2.2.length ≤ 1 := by
  refine ⟨⟨chooseBase language time_of_day ++ ", ",
           "! Hope you’re doing " ++ mood.value ++ ".", ?_⟩,
          ⟨chooseBase language time_of_day ++ ", " ++ name ++
             "! Hope you’re doing ", ".", ?_⟩, ?_, ?_⟩
  · simp only [craft_message]
    simp [String.append_assoc]
  · simp only [craft_message]
    simp [String.append_assoc]
  · cases mood <;> simp [craft_message]
  · cases mood <;> simp [craft_message]

/-- C4 (witness).  The shape guarantees evaluated at a concrete valid
input. -/
theorem craft_message_shape_witness :
    (craft_message "Asha" Mood.tired "en" none).2.1 ∈
      ["friendly", "gentle", "energetic", "supportive"] ∧
    (craft_message "Asha" Mood.tired "en" none).2.2.length ≤ 1 :=
  ⟨(craft_message_shape "Asha" Mood.tired "en" none (Or.inl rfl)).2.2.1,
   (craft_message_shape "Asha" Mood.tired "en" none (Or.inl rfl)).2.2.2⟩

/-- C8.  The `GET /health` handler returns status 200 with the constant
body `{"status": "ok"}`, independent of any input. -/
theorem health_constant : health = (200, [("status", "ok")]) := rfl

/-- C5.  A request whose language does not lowercase to "en" or "hi"
fails with status 400 and detail "Unsupported language. Use 'en' or
'hi'." — so the crafter's output never appears — while a language that
lowercases to "en" or "hi" passes `validate_language`. -/
theorem greet_language_check (name : String) (mood : Mood)
    (language : String) (time_of_day : Option String) :
    (lower language ∉ ["en", "hi"] →
      validate_language language =
        some (400, "Unsupported language. Use 'en' or 'hi'.") ∧
      greet name mood language time_of_day =
        .error 400 "Unsupported language. Use 'en' or 'hi'.") ∧
    ((lower language = "en" ∨ lower language = "hi") →
      validate_language language = none) := by
  constructor
  · intro h
    have hv : validate_language language =
        some (400, "Unsupported language. Use 'en' or 'hi'.") := by
      simp only [validate_language, if_neg h]
    exact ⟨hv, by simp only [greet, hv]⟩
  · intro h
    simp only [validate_language, if_pos (show lower language ∈ ["en", "hi"] by
      simpa using h)]

/-- C5 (witness).  Both directions at concrete inputs: language "de" is
rejected with the fixed 400 detail, and the uppercase "EN" passes the
check. -/
theorem greet_language_check_witness :
    greet "Asha" Mood.happy "de" none =
      .error 400 "Unsupported language. Use 'en' or 'hi'." ∧
    validate_language "EN" = none :=
  ⟨((greet_language_check "Asha" Mood.happy "de" none).1 (by decide)).2,
   (greet_language_check "Asha" Mood.happy "EN" none).2 (Or.inl (by decide))⟩

/-- C6.  With a valid language, a name composed entirely of digit
characters (in Python's sense: ASCII or Unicode digits) is rejected with
status 400 and detail "Name cannot be all digits." before the crafter
runs, while a name containing at least one non-digit character passes
this check and the handler returns a 200 response. -/
theorem greet_digit_name_check (name : String) (mood : Mood)
    (language : String) (time_of_day : Option String)
    (hl : lower language ∈ ["en", "hi"]) :
    (isdigit name = true →
      greet name mood language time_of_day =
        .error 400 "Name cannot be all digits.") ∧
    ((∃ c ∈ name.data, isPyDigit c = false) →
      ∃ m t tips, greet name mood language time_of_day = .ok m t tips) := by
  have hv : validate_language language = none := by
    simp only [validate_language, if_pos hl]
  constructor
  · intro hd
    simp only [greet, hv, hd, if_pos]
  · rintro ⟨c, hc, hcd⟩
    have hd : ¬ (isdigit name = true) := by
      simp only [isdigit, Bool.and_eq_true, List.all_eq_true, not_and]
      intro _ hall
      have hct := hall c hc
      rw [hcd] at hct
      exact Bool.false_ne_true hct
    exact ⟨(craft_message name mood (lower language) time_of_day).1,
           (craft_message name mood (lower language) time_of_day).2.1,
           (craft_message name mood (lower language) time_of_day).2.2,
           by simp only [greet, hv, if_neg hd]⟩

/-- C6 (witness).  The all-digit rejection at the concrete payload
`{"name": "123", "mood": "happy"}` with the default language "en", at
the Arabic-Indic digit name "٣٤" and at the superscript name "²" (both
digits to Python), and passage of the non-digit name "Asha1". -/
theorem greet_digit_name_check_witness :
    greet "123" Mood.happy "en" none =
      .error 400 "Name cannot be all digits." ∧
    greet "٣٤" Mood.happy "en" none =
      .error 400 "Name cannot be all digits." ∧
    greet "²" Mood.happy "en" none =
      .error 400 "Name cannot be all digits." ∧
    ∃ m t tips, greet "Asha1" Mood.happy "en" none = .ok m t tips :=
  ⟨(greet_digit_name_check "123" Mood.happy "en" none (by decide)).1 (by decide),
   (greet_digit_name_check "٣٤" Mood.happy "en" none (by decide)).1 (by decide),
   (greet_digit_name_check "²" Mood.happy "en" none (by decide)).1 (by decide),
   (greet_digit_name_check "Asha1" Mood.happy "en" none (by decide)).2
     ⟨'A', by decide, by decide⟩⟩

/-- C9.  The language check runs before the all-digit name check: a
payload failing both yields the 400 "Unsupported language. Use 'en' or
'hi'." error, never the all-digit error. -/
theorem greet_language_check_first (name : String) (mood : Mood)
    (language : String) (time_of_day : Option String)
    (hl : lower language ∉ ["en", "hi"]) (_hd : isdigit name = true) :
    greet name mood language time_of_day =
      .error 400 "Unsupported language. Use 'en' or 'hi'." := by
  simp only [greet, validate_language, if_neg hl]

/-- C9 (witness).  The all-digit name "123" with the unsupported language
"de" still yields the unsupported-language error. -/
theorem greet_language_check_first_witness :
    greet "123" Mood.happy "de" none =
      .error 400 "Unsupported language. Use 'en' or 'hi'." :=
  greet_language_check_first "123" Mood.happy "de" none (by decide) (by decide)

/-- C10.  The handler lowercases the language before crafting: two valid
requests identical except for the letter case of their language produce
identical responses; yet `craft_message` applied directly to the
non-lowercase code "HI" falls back to the "Hello" greeting. -/
theorem greet_language_case_insensitive (name : String) (mood : Mood)
    (l1 l2 : String) (time_of_day : Option String)
    (h : lower l1 = lower l2) :
    greet name mood l1 time_of_day = greet name mood l2 time_of_day ∧
    (craft_message "Riya" Mood.happy "HI" none).1 =
      "Hello, Riya! Hope you’re doing happy." :=
  ⟨by simp only [greet, validate_language, h], by decide⟩

/-- C7.  The name field is accepted exactly when it is non-empty after
stripping surrounding whitespace and its stripped form is at most 50
characters long; the validated name is the stripped string; a name that
is empty after stripping is rejected (the structural 422 schema error,
modelled as `none`). -/
theorem validateName_spec (raw : String) :
    (validateName raw = some (validateName.strip raw) ↔
      validateName.strip raw ≠ "" ∧ (validateName.strip raw).length ≤ 50) ∧
    (∀ n, validateName raw = some n → n = validateName.strip raw) ∧
    (validateName.strip raw = "" → validateName raw = none) := by
  refine ⟨⟨?_, ?_⟩, ?_, ?_⟩
  · intro h
    by_cases hc : 1 ≤ (validateName.strip raw).length ∧
        (validateName.strip raw).length ≤ 50
    · exact ⟨(ne_empty_iff_one_le_length _).mpr hc.1, hc.2⟩
    · rw [validateName, if_neg hc] at h
      exact absurd h (by simp)
  · rintro ⟨h1, h2⟩
    rw [validateName,
      if_pos ⟨(ne_empty_iff_one_le_length _).mp h1, h2⟩]
  · intro n h
    by_cases hc : 1 ≤ (validateName.strip raw).length ∧
        (validateName.strip raw).length ≤ 50
    · rw [validateName, if_pos hc] at h
      exact (Option.some_injective _ h).symm
    · rw [validateName, if_neg hc] at h
      exact absurd h (by simp)
  · intro h
    rw [validateName, if_neg]
    intro hc
    rw [h] at hc
    exact absurd hc.1 (by decide)

/-- C7 (witness).  A padded name is accepted as its stripped form, and a
whitespace-only name is rejected. -/
theorem validateName_spec_witness :
    validateName " Asha " = some "Asha" ∧ validateName "   " = none :=
  ⟨((validateName_spec " Asha ").1.mpr (by decide)).trans (by decide),
   (validateName_spec "   ").2.2 (by decide)⟩

/-- C10 (witness).  The languages "hi" and "HI" produce the same response
at a concrete request. -/
theorem greet_language_case_insensitive_witness :
    greet "Riya" Mood.happy "hi" (some "morning") =
      greet "Riya" Mood.happy "HI" (some "morning") :=
  (greet_language_case_insensitive "Riya" Mood.happy "hi" "HI"
    (some "morning") (by decide)).1

end GreetingBot
